import Mathlib

/-!
View lifecycle and backend dispatch of `src/wm/wm_view.c`.

A shallow embedding of the view record, its three lifecycle listeners and the
kind-dispatched operations.  Pointers are `Option`s (`none` is the null
pointer); dereferencing a null pointer is a fault, and so is removing a list
node that is in no list; a faulting function returns `none`.  Every call that leaves the translation unit (manager
callbacks, seat, backend requests, logging, `free`) is appended to a call log
carried next to the view, the manager callbacks together with the view record
as it is at the moment of the call.

The `display_*` fields and `wm_view_set_box` (floating point), and the
hit-test / enumeration operations, are not part of this development.
-/

namespace Newm

/-! ## Backend objects (only the fields the file reads) -/

/-- The drawable surface `struct wlr_surface`; the file reads `current.width`
and `current.height`. -/
structure wlr_surface where
  current_width : Int
  current_height : Int
deriving DecidableEq, Repr

/-- The role tag of a shell surface, `enum wlr_xdg_surface_role`. -/
inductive wlr_xdg_surface_role where
  | WLR_XDG_SURFACE_ROLE_NONE
  | WLR_XDG_SURFACE_ROLE_TOPLEVEL
  | WLR_XDG_SURFACE_ROLE_POPUP
deriving DecidableEq, Repr

/-- The toplevel of a shell surface; `title` and `app_id` are C strings that
may be null. -/
structure wlr_xdg_toplevel where
  title : Option String
  app_id : Option String
deriving DecidableEq, Repr

/-- The shell-surface backend object `struct wlr_xdg_surface`. -/
structure wlr_xdg_surface where
  role : wlr_xdg_surface_role
  toplevel : Option wlr_xdg_toplevel
  surface : Option wlr_surface
  geometry_width : Int
  geometry_height : Int
deriving DecidableEq, Repr

/-- The compatibility-surface backend object `struct wlr_xwayland_surface`.
The C fields `class` and `instance` are spelled `class_name` and
`instance_name` here. -/
structure wlr_xwayland_surface where
  title : Option String
  class_name : Option String
  instance_name : Option String
  surface : Option wlr_surface
deriving DecidableEq, Repr

/-! ## The view record -/

/-- Modelled from the spec: the kind tag `enum wm_view_kind`, declared in
`wm/wm_view.h` (not among the sources); the two tags are the ones the source
switches on. -/
inductive wm_view_kind where
  | WM_VIEW_XDG
  | WM_VIEW_XWAYLAND
deriving DecidableEq, Repr

/-- The six static handlers a listener's `notify` pointer can hold. -/
inductive notify_fn where
  | handle_xdg_map
  | handle_xdg_unmap
  | handle_xdg_destroy
  | handle_xwayland_map
  | handle_xwayland_unmap
  | handle_xwayland_destroy
deriving DecidableEq, Repr

/-- A `struct wl_listener`: `link` records whether the listener is currently
inserted in a signal's listener list, `notify` is the function pointer. -/
structure wl_listener where
  link : Bool
  notify : Option notify_fn
deriving DecidableEq, Repr

/-- Modelled from the spec: the record `struct wm_view`, declared in
`wm/wm_view.h` (not among the sources), with the fields the source accesses:
the kind tag, one backend handle per kind (`none` is the null pointer), the
`mapped` flag, the three lifecycle listeners and the membership link into the
manager's view list.  `wm_server` is kept as an address; the four `display_*`
doubles are left out. -/
structure wm_view where
  link : Bool
  wm_server : Option Nat
  kind : wm_view_kind
  wlr_xdg_surface : Option wlr_xdg_surface
  wlr_xwayland_surface : Option wlr_xwayland_surface
  mapped : Bool
  map : wl_listener
  unmap : wl_listener
  destroy : wl_listener
deriving DecidableEq, Repr

/-! ## Calls leaving the translation unit -/

/-- Modelled from the spec: the calls the file makes outward.  The manager
callbacks and the seat call are declared in `wm/wm.h` and `wm/wm_seat.h` (not
among the sources), the others belong to the backend library and libc.  Each
is recorded with its arguments; a view argument is the view record as it is
when the call is made, and the callee is taken not to write the view.  The
sizes of `wlr_xdg_toplevel_set_size` are `uint32_t` parameters and those of
`wlr_xwayland_surface_configure` are `uint16_t` parameters (its position is
`int16_t`); the recorded numbers are the values of those parameters. -/
inductive Call where
  | wlr_log (fmt : String) (args : List (Option String))
  | wm_callback_init_view (view : wm_view)
  | wm_callback_destroy_view (view : wm_view)
  | wlr_xdg_toplevel_set_tiled (surface : Option wlr_xdg_surface) (edges : Nat)
  | wlr_xdg_toplevel_set_size (surface : Option wlr_xdg_surface) (width height : Int)
  | wlr_xwayland_surface_configure (surface : Option wlr_xwayland_surface)
      (x y : Int) (width height : Int)
  | wm_seat_focus_surface (seat : Nat) (surface : Option wlr_surface)
  | free (view : wm_view)
deriving DecidableEq, Repr

/-- The view together with the log of outgoing calls made so far. -/
structure World where
  view : wm_view
  calls : List Call
deriving DecidableEq, Repr

/-- Append one outgoing call to the log. -/
def World.emit (w : World) (c : Call) : World :=
  { w with calls := w.calls ++ [c] }

/-- Store into `view->mapped`. -/
def World.set_mapped (w : World) (b : Bool) : World :=
  { w with view := { w.view with mapped := b } }

/-! ## Operations used by the handlers -/

/-- Embedding of `wm_view_get_info` (lines 138-152): the three out-parameters are the
result; the view is not written. -/
def wm_view_get_info (w : World) :
    Option ((Option String × Option String × Option String) × World) :=
  match w.view.kind with
  | .WM_VIEW_XDG =>
    match w.view.wlr_xdg_surface with
    | none => none
    | some s =>
      match s.toplevel with
      | none => none
      | some t => some ((t.title, t.app_id, some "toplevel"), w)
  | .WM_VIEW_XWAYLAND =>
    match w.view.wlr_xwayland_surface with
    | none => none
    | some x => some ((x.title, x.class_name, x.instance_name), w)

/-- Removing a node with `wl_list_remove` writes through the node's neighbour
pointers, which are null when the node is in no list (never inserted, or
already removed): that is a fault.  Otherwise the node leaves its list. -/
def wl_list_remove (linked : Bool) : Option Bool :=
  if linked then some false else none

/-- Embedding of `wm_view_destroy` (lines 124-129): the three listeners and
the view's own link are removed from their lists, in this order; each removal
faults if the node is in no list. -/
def wm_view_destroy (w : World) : Option World :=
  match wl_list_remove w.view.map.link with
  | none => none
  | some l1 =>
    match wl_list_remove w.view.unmap.link with
    | none => none
    | some l2 =>
      match wl_list_remove w.view.destroy.link with
      | none => none
      | some l3 =>
        match wl_list_remove w.view.link with
        | none => none
        | some l4 =>
          some { w with view :=
            { w.view with
              map := { w.view.map with link := l1 }
              unmap := { w.view.unmap with link := l2 }
              destroy := { w.view.destroy with link := l3 }
              link := l4 } }

/-! ## Handlers -/

/-- Embedding of `handle_xdg_map` (lines 18-21). -/
def handle_xdg_map (w : World) : Option World :=
  some (w.set_mapped true)

/-- Embedding of `handle_xdg_unmap` (lines 23-27). -/
def handle_xdg_unmap (w : World) : Option World :=
  let w1 := w.set_mapped false
  some (w1.emit (.wm_callback_destroy_view w1.view))

/-- Embedding of `handle_xdg_destroy` (lines 29-33). -/
def handle_xdg_destroy (w : World) : Option World :=
  match wm_view_destroy w with
  | none => none
  | some w1 => some (w1.emit (.free w1.view))

/-- Embedding of `handle_xwayland_map` (lines 39-50): query the info, log it, call the
manager, and only then store `mapped = true`. -/
def handle_xwayland_map (w : World) : Option World :=
  match wm_view_get_info w with
  | none => none
  | some ((title, app_id, role), w1) =>
    let w2 := w1.emit (.wlr_log "New wm_view (xwayland): %s, %s, %s" [title, app_id, role])
    let w3 := w2.emit (.wm_callback_init_view w2.view)
    some (w3.set_mapped true)

/-- Embedding of `handle_xwayland_unmap` (lines 52-56). -/
def handle_xwayland_unmap (w : World) : Option World :=
  let w1 := w.set_mapped false
  some (w1.emit (.wm_callback_destroy_view w1.view))

/-- Embedding of `handle_xwayland_destroy` (lines 58-62). -/
def handle_xwayland_destroy (w : World) : Option World :=
  match wm_view_destroy w with
  | none => none
  | some w1 => some (w1.emit (.free w1.view))

/-! ## Construction -/

/-- Embedding of `wm_view_init_xdg` (lines 68-98).  `wl_signal_add` reads the signal that
lives inside `*surface`, so a null `surface` faults there at the latest (it
already faults in `wm_view_get_info`). -/
def wm_view_init_xdg (w : World) (server : Option Nat)
    (surface : Option wlr_xdg_surface) : Option World :=
  let w1 : World := { w with view :=
    { w.view with kind := .WM_VIEW_XDG, wm_server := server, wlr_xdg_surface := surface } }
  match wm_view_get_info w1 with
  | none => none
  | some ((title, app_id, role), w2) =>
    let w3 := w2.emit (.wlr_log "New wm_view (xdg): %s, %s, %s" [title, app_id, role])
    let w4 := w3.set_mapped false
    match surface with
    | none => none
    | some _ =>
      let w5 : World := { w4 with view :=
        { w4.view with
          map := { notify := some .handle_xdg_map, link := true }
          unmap := { notify := some .handle_xdg_unmap, link := true }
          destroy := { notify := some .handle_xdg_destroy, link := true } } }
      let w6 := w5.emit (.wm_callback_init_view w5.view)
      some (w6.emit (.wlr_xdg_toplevel_set_tiled surface 15))

/-- Embedding of `wm_view_init_xwayland` (lines 100-122).  `wl_signal_add` reads the signal
that lives inside `*surface`, so a null `surface` faults. -/
def wm_view_init_xwayland (w : World) (server : Option Nat)
    (surface : Option wlr_xwayland_surface) : Option World :=
  let w1 : World := { w with view :=
    { w.view with
      kind := .WM_VIEW_XWAYLAND, wm_server := server, wlr_xwayland_surface := surface } }
  let w2 := w1.set_mapped false
  match surface with
  | none => none
  | some _ =>
    some { w2 with view :=
      { w2.view with
        map := { notify := some .handle_xwayland_map, link := true }
        unmap := { notify := some .handle_xwayland_unmap, link := true }
        destroy := { notify := some .handle_xwayland_destroy, link := true } } }

/-! ## Manager-facing operations -/

/-- Conversion of a C `int` argument to a `uint32_t` parameter. -/
def to_uint32 (n : Int) : Int := n % 4294967296

/-- Conversion of a C `int` argument to a `uint16_t` parameter. -/
def to_uint16 (n : Int) : Int := n % 65536

/-- Embedding of `wm_view_request_size` (lines 154-172).  The two `int`
arguments are converted to the callee's parameter type at each call:
`uint32_t` for `wlr_xdg_toplevel_set_size`, `uint16_t` for
`wlr_xwayland_surface_configure`. -/
def wm_view_request_size (w : World) (width height : Int) : Option World :=
  match w.view.kind with
  | .WM_VIEW_XDG =>
    match w.view.wlr_xdg_surface with
    | none => some (w.emit (.wlr_log "Warning: view with wlr_xdg_surface == 0" []))
    | some s =>
      if s.role = .WLR_XDG_SURFACE_ROLE_TOPLEVEL then
        some (w.emit (.wlr_xdg_toplevel_set_size w.view.wlr_xdg_surface
          (to_uint32 width) (to_uint32 height)))
      else
        some (w.emit (.wlr_log "Warning: Can only set size on toplevel" []))
  | .WM_VIEW_XWAYLAND =>
    some (w.emit (.wlr_xwayland_surface_configure w.view.wlr_xwayland_surface 0 0
      (to_uint16 width) (to_uint16 height)))

/-- Embedding of `wm_view_get_size` (lines 174-204): the two out-parameters are the
result. -/
def wm_view_get_size (w : World) : Option ((Int × Int) × World) :=
  match w.view.kind with
  | .WM_VIEW_XDG =>
    match w.view.wlr_xdg_surface with
    | none => some ((0, 0), w.emit (.wlr_log "Warning: view with wlr_xdg_surface == 0" []))
    | some s => some ((s.geometry_width, s.geometry_height), w)
  | .WM_VIEW_XWAYLAND =>
    match w.view.wlr_xwayland_surface with
    | none => none
    | some x =>
      match x.surface with
      | none => some ((0, 0), w)
      | some d => some ((d.current_width, d.current_height), w)

/-- Embedding of `wm_view_focus` (lines 207-219). -/
def wm_view_focus (w : World) (seat : Nat) : Option World :=
  match w.view.kind with
  | .WM_VIEW_XDG =>
    match w.view.wlr_xdg_surface with
    | none => none
    | some s => some (w.emit (.wm_seat_focus_surface seat s.surface))
  | .WM_VIEW_XWAYLAND =>
    match w.view.wlr_xwayland_surface with
    | none => none
    | some x =>
      match x.surface with
      | none => some w
      | some d => some (w.emit (.wm_seat_focus_surface seat (some d)))

/-! ## Event delivery by the backend -/

/-- The three lifecycle signals of a backend surface. -/
inductive Event where
  | map
  | unmap
  | destroy
deriving DecidableEq, Repr

/-- Call through a listener's `notify` pointer. -/
def notify_fn.run : notify_fn → World → Option World
  | .handle_xdg_map => Newm.handle_xdg_map
  | .handle_xdg_unmap => Newm.handle_xdg_unmap
  | .handle_xdg_destroy => Newm.handle_xdg_destroy
  | .handle_xwayland_map => Newm.handle_xwayland_map
  | .handle_xwayland_unmap => Newm.handle_xwayland_unmap
  | .handle_xwayland_destroy => Newm.handle_xwayland_destroy

/-- The listener of the view that is attached to the signal of an event. -/
def Event.listener (e : Event) (v : wm_view) : wl_listener :=
  match e with
  | .map => v.map
  | .unmap => v.unmap
  | .destroy => v.destroy

/-- The backend emits one signal (the library's `wl_signal_emit`): the view's
listener for it is notified if it is still in the signal's list
(`wl_signal_add` put it there, `wl_list_remove` takes it out); a listener that
is not in the list is not called.  Calling through a null `notify` pointer is
a fault. -/
def wl_signal_emit (e : Event) (w : World) : Option World :=
  if (e.listener w.view).link then
    match (e.listener w.view).notify with
    | none => none
    | some f => f.run w
  else
    some w

/-- Deliver a sequence of events in order, stopping at the first fault. -/
def deliver : List Event → World → Option World
  | [], w => some w
  | e :: es, w =>
    match wl_signal_emit e w with
    | none => none
    | some w1 => deliver es w1

/-- The backend-legal sequence: `n` map/unmap pairs, then destroy. -/
def legal_events : Nat → List Event
  | 0 => [.destroy]
  | n + 1 => .map :: .unmap :: legal_events n

/-! ## Observations on the call log -/

/-- Is this call `wm_callback_init_view`? -/
def Call.is_init_view : Call → Bool
  | .wm_callback_init_view _ => true
  | _ => false

/-- Is this call `wm_callback_destroy_view`? -/
def Call.is_destroy_view : Call → Bool
  | .wm_callback_destroy_view _ => true
  | _ => false

/-- Is this call a request to a backend surface object or to the seat (as
opposed to logging, a manager callback or `free`)? -/
def Call.is_backend : Call → Bool
  | .wlr_xdg_toplevel_set_tiled _ _ => true
  | .wlr_xdg_toplevel_set_size _ _ _ => true
  | .wlr_xwayland_surface_configure _ _ _ _ _ => true
  | .wm_seat_focus_surface _ _ => true
  | _ => false

/-- Number of `wm_callback_init_view` calls in a log. -/
def init_count (cs : List Call) : Nat := cs.countP Call.is_init_view

/-- Number of `wm_callback_destroy_view` calls in a log. -/
def destroy_count (cs : List Call) : Nat := cs.countP Call.is_destroy_view

/-- The backend requests in a log, in order. -/
def backend_calls (cs : List Call) : List Call := cs.filter Call.is_backend

/-- The view records passed to `wm_callback_init_view`, in order. -/
def init_snapshots : List Call → List wm_view
  | [] => []
  | .wm_callback_init_view v :: cs => v :: init_snapshots cs
  | _ :: cs => init_snapshots cs

/-- Number of events of a sequence whose handler runs: those delivered before
the first destroy (destroy removes the three listeners). -/
def handled (e : Event) (evs : List Event) : Nat :=
  (evs.takeWhile (fun x => x != Event.destroy)).count e

/-- A view record as freshly zero-allocated. -/
def blank_view : wm_view :=
  { link := false, wm_server := none, kind := .WM_VIEW_XDG,
    wlr_xdg_surface := none, wlr_xwayland_surface := none, mapped := false,
    map := ⟨false, none⟩, unmap := ⟨false, none⟩, destroy := ⟨false, none⟩ }

/-- A world with a blank view and an empty call log. -/
def blank_world : World := { view := blank_view, calls := [] }

/-- A sample compatibility surface without a drawable surface. -/
def sample_xwayland : wlr_xwayland_surface :=
  { title := some "xterm", class_name := some "XTerm", instance_name := some "xterm",
    surface := none }

/-- A sample shell surface with a toplevel, no drawable surface and a
640 x 480 geometry box. -/
def sample_xdg : wlr_xdg_surface :=
  { role := .WLR_XDG_SURFACE_ROLE_TOPLEVEL,
    toplevel := some { title := some "term", app_id := some "foot" },
    surface := none, geometry_width := 640, geometry_height := 480 }

/-- The world right after `wm_view_init_xwayland` on a blank view with the
sample compat surface. -/
def sample_xwayland_world : World :=
  { view :=
      { link := false, wm_server := none, kind := .WM_VIEW_XWAYLAND,
        wlr_xdg_surface := none, wlr_xwayland_surface := some sample_xwayland,
        mapped := false,
        map := ⟨true, some .handle_xwayland_map⟩,
        unmap := ⟨true, some .handle_xwayland_unmap⟩,
        destroy := ⟨true, some .handle_xwayland_destroy⟩ },
    calls := [] }

/-- A zero-allocated record whose own link node has been inserted into the
manager's view list. -/
def linked_world : World :=
  { view := { blank_view with link := true }, calls := [] }

/-- The world right after `wm_view_init_xwayland` on the record of
`linked_world` with the sample compat surface. -/
def linked_xwayland_world : World :=
  { view := { sample_xwayland_world.view with link := true }, calls := [] }

/-- A shell view record around a given handle, otherwise blank. -/
def xdg_view (p : Option wlr_xdg_surface) : wm_view :=
  { blank_view with kind := .WM_VIEW_XDG, wlr_xdg_surface := p }

/-- A compat view record around a given handle, otherwise blank. -/
def xwayland_view (p : Option wlr_xwayland_surface) : wm_view :=
  { blank_view with kind := .WM_VIEW_XWAYLAND, wlr_xwayland_surface := p }

/-- A sample drawable surface of 300 x 200. -/
def sample_surface : wlr_surface := { current_width := 300, current_height := 200 }

/-- The value of `mapped` after a run of handled map/unmap events that
starts from `b`. -/
def mapped_after (b : Bool) : List Event → Bool
  | [] => b
  | .map :: es => mapped_after true es
  | .unmap :: es => mapped_after false es
  | .destroy :: es => mapped_after b es

/-- A compat view whose handle is present and whose three listeners are
attached with the compat handlers. -/
def live_xwayland (v : wm_view) : Prop :=
  v.kind = .WM_VIEW_XWAYLAND ∧ v.wlr_xwayland_surface.isSome = true ∧
  v.map = ⟨true, some .handle_xwayland_map⟩ ∧
  v.unmap = ⟨true, some .handle_xwayland_unmap⟩ ∧
  v.destroy = ⟨true, some .handle_xwayland_destroy⟩

/-- A view whose three listeners are attached with the shell handlers. -/
def live_xdg (v : wm_view) : Prop :=
  v.map = ⟨true, some .handle_xdg_map⟩ ∧
  v.unmap = ⟨true, some .handle_xdg_unmap⟩ ∧
  v.destroy = ⟨true, some .handle_xdg_destroy⟩

/-- A view none of whose listeners is in a signal list. -/
def detached (v : wm_view) : Prop :=
  v.map.link = false ∧ v.unmap.link = false ∧ v.destroy.link = false

/-- A record ready for construction and for a later destroy: its own link
node is in the manager's view list and none of its listeners is in a signal
list yet. -/
def ready (v : wm_view) : Prop :=
  v.link = true ∧ detached v

/-- A view all four of whose list nodes are in a list, so that
`wm_view_destroy` can remove them. -/
def removable (v : wm_view) : Prop :=
  v.map.link = true ∧ v.unmap.link = true ∧ v.destroy.link = true ∧ v.link = true

/-! ## Lemmas on the observations -/

@[simp] theorem init_count_append (a b : List Call) :
    init_count (a ++ b) = init_count a + init_count b := by
  simp [init_count]

@[simp] theorem destroy_count_append (a b : List Call) :
    destroy_count (a ++ b) = destroy_count a + destroy_count b := by
  simp [destroy_count]

@[simp] theorem backend_calls_append (a b : List Call) :
    backend_calls (a ++ b) = backend_calls a ++ backend_calls b := by
  simp [backend_calls]

theorem init_snapshots_append (a b : List Call) :
    init_snapshots (a ++ b) = init_snapshots a ++ init_snapshots b := by
  induction a with
  | nil => rfl
  | cons c cs ih => cases c <;> simp [init_snapshots, ih]

theorem map_bne_destroy : (Event.map != Event.destroy) = true := by decide

theorem unmap_bne_destroy : (Event.unmap != Event.destroy) = true := by decide

theorem destroy_bne_destroy : (Event.destroy != Event.destroy) = false := by decide

@[simp] theorem handled_nil (e : Event) : handled e [] = 0 := rfl

@[simp] theorem handled_destroy_cons (e : Event) (es : List Event) :
    handled e (.destroy :: es) = 0 := by
  simp [handled, List.takeWhile_cons, destroy_bne_destroy]

@[simp] theorem handled_map_map (es : List Event) :
    handled .map (.map :: es) = handled .map es + 1 := by
  simp [handled, List.takeWhile_cons, map_bne_destroy]

@[simp] theorem handled_map_unmap (es : List Event) :
    handled .map (.unmap :: es) = handled .map es := by
  simp [handled, List.takeWhile_cons, unmap_bne_destroy]

@[simp] theorem handled_unmap_unmap (es : List Event) :
    handled .unmap (.unmap :: es) = handled .unmap es + 1 := by
  simp [handled, List.takeWhile_cons, unmap_bne_destroy]

@[simp] theorem handled_unmap_map (es : List Event) :
    handled .unmap (.map :: es) = handled .unmap es := by
  simp [handled, List.takeWhile_cons, map_bne_destroy]

theorem handled_map_legal (n : Nat) : handled .map (legal_events n) = n := by
  induction n with
  | zero => simp [legal_events]
  | succ k ih => simp [legal_events, ih]

theorem handled_unmap_legal (n : Nat) : handled .unmap (legal_events n) = n := by
  induction n with
  | zero => simp [legal_events]
  | succ k ih => simp [legal_events, ih]

theorem handled_of_not_mem (e : Event) (es : List Event) (h : e ∉ es) :
    handled e es = 0 := by
  unfold handled
  apply List.count_eq_zero_of_not_mem
  intro hm
  exact h ((List.takeWhile_sublist _).subset hm)

theorem handled_append_destroy (e : Event) (pre post : List Event) :
    handled e (pre ++ .destroy :: post) = handled e pre := by
  unfold handled
  induction pre with
  | nil => simp [List.takeWhile_cons, destroy_bne_destroy]
  | cons x xs ih =>
    cases x
    · simp only [List.cons_append, List.takeWhile_cons, map_bne_destroy, if_true,
        List.count_cons, ih]
    · simp only [List.cons_append, List.takeWhile_cons, unmap_bne_destroy, if_true,
        List.count_cons, ih]
    · simp [List.takeWhile_cons, destroy_bne_destroy]

theorem mapped_after_last (es : List Event) (b : Bool)
    (h : Event.destroy ∉ es) :
    mapped_after b es = true ↔ (es = [] ∧ b = true) ∨ es.getLast? = some .map := by
  induction es generalizing b with
  | nil => simp [mapped_after]
  | cons e rest ih =>
    have hr : Event.destroy ∉ rest := fun hm => h (List.mem_cons_of_mem _ hm)
    cases rest with
    | nil =>
      cases e
      · simp [mapped_after]
      · simp [mapped_after]
      · exact absurd (List.mem_cons_self _ _) h
    | cons r rs =>
      cases e
      · simpa [mapped_after, List.getLast?_cons_cons] using ih true hr
      · simpa [mapped_after, List.getLast?_cons_cons] using ih false hr
      · exact absurd (List.mem_cons_self _ _) h

/-! ## One event at a time -/

theorem emit_detached (e : Event) (w : World) (h : detached w.view) :
    wl_signal_emit e w = some w := by
  obtain ⟨h1, h2, h3⟩ := h
  cases e <;> simp [wl_signal_emit, Event.listener, h1, h2, h3]

theorem deliver_detached (evs : List Event) (w : World) (h : detached w.view) :
    deliver evs w = some w := by
  induction evs with
  | nil => rfl
  | cons e es ih => simp [deliver, emit_detached e w h, ih]

theorem emit_map_xwayland (w : World) (h : live_xwayland w.view) :
    ∃ x, w.view.wlr_xwayland_surface = some x ∧
      wl_signal_emit .map w = some
        { view := { w.view with mapped := true },
          calls := w.calls ++
            [.wlr_log "New wm_view (xwayland): %s, %s, %s"
                [x.title, x.class_name, x.instance_name],
             .wm_callback_init_view w.view] } := by
  obtain ⟨hk, hs, hm, _, _⟩ := h
  cases hx : w.view.wlr_xwayland_surface with
  | none => simp [hx] at hs
  | some x =>
    refine ⟨x, rfl, ?_⟩
    simp [wl_signal_emit, Event.listener, hm, notify_fn.run, handle_xwayland_map,
      wm_view_get_info, hk, hx, World.emit, World.set_mapped]

theorem emit_unmap_xwayland (w : World) (h : live_xwayland w.view) :
    wl_signal_emit .unmap w = some
      { view := { w.view with mapped := false },
        calls := w.calls ++ [.wm_callback_destroy_view { w.view with mapped := false }] } := by
  obtain ⟨_, _, _, hu, _⟩ := h
  simp [wl_signal_emit, Event.listener, hu, notify_fn.run, handle_xwayland_unmap,
    World.emit, World.set_mapped]

theorem emit_destroy_xwayland (w : World) (h : live_xwayland w.view)
    (hlink : w.view.link = true) :
    ∃ w1, wl_signal_emit .destroy w = some w1 ∧ detached w1.view ∧
      w1.view.mapped = w.view.mapped ∧ w1.calls = w.calls ++ [.free w1.view] := by
  obtain ⟨_, _, hm, hu, hd⟩ := h
  simp [wl_signal_emit, Event.listener, hm, hu, hd, hlink, notify_fn.run,
    handle_xwayland_destroy, wm_view_destroy, wl_list_remove, World.emit, detached]

theorem emit_map_xdg (w : World) (h : live_xdg w.view) :
    wl_signal_emit .map w = some { view := { w.view with mapped := true }, calls := w.calls } := by
  obtain ⟨hm, _, _⟩ := h
  simp [wl_signal_emit, Event.listener, hm, notify_fn.run, handle_xdg_map, World.set_mapped]

theorem emit_unmap_xdg (w : World) (h : live_xdg w.view) :
    wl_signal_emit .unmap w = some
      { view := { w.view with mapped := false },
        calls := w.calls ++ [.wm_callback_destroy_view { w.view with mapped := false }] } := by
  obtain ⟨_, hu, _⟩ := h
  simp [wl_signal_emit, Event.listener, hu, notify_fn.run, handle_xdg_unmap,
    World.emit, World.set_mapped]

theorem emit_destroy_xdg (w : World) (h : live_xdg w.view)
    (hlink : w.view.link = true) :
    ∃ w1, wl_signal_emit .destroy w = some w1 ∧ detached w1.view ∧
      w1.view.mapped = w.view.mapped ∧ w1.calls = w.calls ++ [.free w1.view] := by
  obtain ⟨hm, hu, hd⟩ := h
  simp [wl_signal_emit, Event.listener, hm, hu, hd, hlink, notify_fn.run,
    handle_xdg_destroy, wm_view_destroy, wl_list_remove, World.emit, detached]

theorem destroy_removable (u : World) (h : removable u.view) :
    ∃ r, wm_view_destroy u = some r ∧ r.calls = u.calls := by
  obtain ⟨h1, h2, h3, h4⟩ := h
  simp [wm_view_destroy, wl_list_remove, h1, h2, h3, h4]

/-! ## Whole runs -/

/-- Summary of a run of a live compat view over an event sequence that
delivers no destroy, or over any event sequence when the view's own link is in
the manager's list. -/
theorem run_xwayland (evs : List Event) (w : World) (h : live_xwayland w.view)
    (hd0 : w.view.link = true ∨ Event.destroy ∉ evs) :
    ∃ w1, deliver evs w = some w1 ∧
      init_count w1.calls = init_count w.calls + handled .map evs ∧
      destroy_count w1.calls = destroy_count w.calls + handled .unmap evs ∧
      (Event.destroy ∉ evs →
        live_xwayland w1.view ∧ w1.view.mapped = mapped_after w.view.mapped evs) := by
  induction evs generalizing w with
  | nil => exact ⟨w, rfl, by simp, by simp, fun _ => ⟨h, rfl⟩⟩
  | cons e es ih =>
    cases e with
    | map =>
      obtain ⟨x, _, hstep⟩ := emit_map_xwayland w h
      obtain ⟨w1, hrun, hi, hd, hl⟩ := ih
        { view := { w.view with mapped := true },
          calls := w.calls ++
            [.wlr_log "New wm_view (xwayland): %s, %s, %s"
                [x.title, x.class_name, x.instance_name],
             .wm_callback_init_view w.view] } h
        (hd0.imp id (fun hn hm => hn (List.mem_cons_of_mem _ hm)))
      refine ⟨w1, ?_, ?_, ?_, ?_⟩
      · simp [deliver, hstep, hrun]
      · rw [hi]; simp [init_count, Call.is_init_view]; omega
      · rw [hd]; simp [destroy_count, Call.is_destroy_view]
      · intro hn
        exact hl (fun hm => hn (List.mem_cons_of_mem _ hm))
    | unmap =>
      have hstep := emit_unmap_xwayland w h
      obtain ⟨w1, hrun, hi, hd, hl⟩ := ih
        { view := { w.view with mapped := false },
          calls := w.calls ++ [.wm_callback_destroy_view { w.view with mapped := false }] } h
        (hd0.imp id (fun hn hm => hn (List.mem_cons_of_mem _ hm)))
      refine ⟨w1, ?_, ?_, ?_, ?_⟩
      · simp [deliver, hstep, hrun]
      · rw [hi]; simp [init_count, Call.is_init_view]
      · rw [hd]; simp [destroy_count, Call.is_destroy_view]; omega
      · intro hn
        exact hl (fun hm => hn (List.mem_cons_of_mem _ hm))
    | destroy =>
      have hlink : w.view.link = true :=
        hd0.resolve_right (fun hn => hn (List.mem_cons_self _ _))
      obtain ⟨w1, hstep, hdet, _, hc⟩ := emit_destroy_xwayland w h hlink
      refine ⟨w1, ?_, ?_, ?_, ?_⟩
      · simp [deliver, hstep, deliver_detached es w1 hdet]
      · rw [hc]; simp [init_count, Call.is_init_view]
      · rw [hc]; simp [destroy_count, Call.is_destroy_view]
      · intro hn
        exact absurd (List.mem_cons_self _ _) hn

/-- Summary of a run of a live shell view over an event sequence that
delivers no destroy, or over any event sequence when the view's own link is in
the manager's list. -/
theorem run_xdg (evs : List Event) (w : World) (h : live_xdg w.view)
    (hd0 : w.view.link = true ∨ Event.destroy ∉ evs) :
    ∃ w1, deliver evs w = some w1 ∧
      init_count w1.calls = init_count w.calls ∧
      destroy_count w1.calls = destroy_count w.calls + handled .unmap evs ∧
      (Event.destroy ∉ evs →
        live_xdg w1.view ∧ w1.view.mapped = mapped_after w.view.mapped evs) := by
  induction evs generalizing w with
  | nil => exact ⟨w, rfl, rfl, by simp, fun _ => ⟨h, rfl⟩⟩
  | cons e es ih =>
    cases e with
    | map =>
      have hstep := emit_map_xdg w h
      obtain ⟨w1, hrun, hi, hd, hl⟩ := ih
        { view := { w.view with mapped := true }, calls := w.calls } h
        (hd0.imp id (fun hn hm => hn (List.mem_cons_of_mem _ hm)))
      refine ⟨w1, ?_, ?_, ?_, ?_⟩
      · simp [deliver, hstep, hrun]
      · rw [hi]
      · rw [hd]; simp
      · intro hn
        exact hl (fun hm => hn (List.mem_cons_of_mem _ hm))
    | unmap =>
      have hstep := emit_unmap_xdg w h
      obtain ⟨w1, hrun, hi, hd, hl⟩ := ih
        { view := { w.view with mapped := false },
          calls := w.calls ++ [.wm_callback_destroy_view { w.view with mapped := false }] } h
        (hd0.imp id (fun hn hm => hn (List.mem_cons_of_mem _ hm)))
      refine ⟨w1, ?_, ?_, ?_, ?_⟩
      · simp [deliver, hstep, hrun]
      · rw [hi]; simp [init_count, Call.is_init_view]
      · rw [hd]; simp [destroy_count, Call.is_destroy_view]; omega
      · intro hn
        exact hl (fun hm => hn (List.mem_cons_of_mem _ hm))
    | destroy =>
      have hlink : w.view.link = true :=
        hd0.resolve_right (fun hn => hn (List.mem_cons_self _ _))
      obtain ⟨w1, hstep, hdet, _, hc⟩ := emit_destroy_xdg w h hlink
      refine ⟨w1, ?_, ?_, ?_, ?_⟩
      · simp [deliver, hstep, deliver_detached es w1 hdet]
      · rw [hc]; simp [init_count, Call.is_init_view]
      · rw [hc]; simp [destroy_count, Call.is_destroy_view]
      · intro hn
        exact absurd (List.mem_cons_self _ _) hn

/-! ## Construction lemmas -/

theorem init_xwayland_spec (w : World) (server : Option Nat) (x : wlr_xwayland_surface) :
    ∃ w1, wm_view_init_xwayland w server (some x) = some w1 ∧ live_xwayland w1.view ∧
      w1.view.mapped = false ∧ w1.calls = w.calls ∧ w1.view.link = w.view.link := by
  simp [wm_view_init_xwayland, World.set_mapped, live_xwayland]

theorem init_xwayland_inv (w w1 : World) (server : Option Nat)
    (p : Option wlr_xwayland_surface) (h : wm_view_init_xwayland w server p = some w1) :
    live_xwayland w1.view ∧ w1.view.mapped = false ∧ w1.calls = w.calls := by
  cases p with
  | none => simp [wm_view_init_xwayland] at h
  | some x =>
    obtain ⟨w2, h2, hl, hm, hc, _⟩ := init_xwayland_spec w server x
    rw [h] at h2
    cases h2
    exact ⟨hl, hm, hc⟩

theorem init_xdg_spec (w : World) (server : Option Nat) (s : wlr_xdg_surface)
    (t : wlr_xdg_toplevel) (ht : s.toplevel = some t) :
    ∃ w1, wm_view_init_xdg w server (some s) = some w1 ∧ live_xdg w1.view ∧
      w1.view.mapped = false ∧
      w1.calls = w.calls ++
        [.wlr_log "New wm_view (xdg): %s, %s, %s" [t.title, t.app_id, some "toplevel"],
         .wm_callback_init_view w1.view,
         .wlr_xdg_toplevel_set_tiled (some s) 15] ∧
      w1.view.link = w.view.link := by
  simp [wm_view_init_xdg, wm_view_get_info, ht, World.set_mapped, World.emit, live_xdg]

theorem init_xdg_inv (w w1 : World) (server : Option Nat)
    (p : Option wlr_xdg_surface) (h : wm_view_init_xdg w server p = some w1) :
    live_xdg w1.view ∧ w1.view.mapped = false ∧
      init_count w1.calls = init_count w.calls + 1 ∧
      destroy_count w1.calls = destroy_count w.calls := by
  cases p with
  | none => simp [wm_view_init_xdg, wm_view_get_info] at h
  | some s =>
    cases ht : s.toplevel with
    | none => simp [wm_view_init_xdg, wm_view_get_info, ht] at h
    | some t =>
      obtain ⟨w2, h2, hl, hm, hc, _⟩ := init_xdg_spec w server s t ht
      rw [h] at h2
      cases h2
      refine ⟨hl, hm, ?_, ?_⟩
      · rw [hc]; simp [init_count, Call.is_init_view]
      · rw [hc]; simp [destroy_count, Call.is_destroy_view]

/-! ## Lifecycle claims -/

/-- C1, as stated, fails: a compat view that is mapped, unmapped and mapped
again has had `wm_callback_init_view` called twice, and the backend-legal
sequence map, unmap, map, unmap, destroy on a view whose link is in the
manager's list has two calls at its end as well. -/
theorem C1_counterexample :
    ((wm_view_init_xwayland blank_world none (some sample_xwayland)).bind
        (deliver [.map, .unmap, .map])).map (fun w => init_count w.calls) = some 2 ∧
    ((wm_view_init_xwayland linked_world none (some sample_xwayland)).bind
        (deliver (legal_events 2))).map (fun w => init_count w.calls) = some 2 := by
  decide

/-- C1, amended: for a compat view built on a record whose own link is in the
manager's list and whose listeners are in no list yet, construction makes no
`wm_callback_init_view` call, the first map event makes the first one, and
over any event sequence there is exactly one call per map event handled; a
backend-legal sequence of `n` map/unmap pairs followed by destroy therefore
has exactly `n` calls at its end. -/
theorem C1_init_view_once_per_map (w : World) (server : Option Nat)
    (x : wlr_xwayland_surface) (hready : ready w.view) :
    ∃ w1, wm_view_init_xwayland w server (some x) = some w1 ∧
      init_count w1.calls = init_count w.calls ∧
      (∃ w2, deliver [.map] w1 = some w2 ∧ init_count w2.calls = init_count w.calls + 1) ∧
      (∀ evs, ∃ w2, deliver evs w1 = some w2 ∧
        init_count w2.calls = init_count w.calls + handled .map evs) ∧
      (∀ n, ∃ w2, deliver (legal_events n) w1 = some w2 ∧
        init_count w2.calls = init_count w.calls + n) := by
  obtain ⟨w1, hinit, hl, _, hc, hk⟩ := init_xwayland_spec w server x
  have hlink : w1.view.link = true := by rw [hk]; exact hready.1
  have key : ∀ evs, ∃ w2, deliver evs w1 = some w2 ∧
      init_count w2.calls = init_count w.calls + handled .map evs := by
    intro evs
    obtain ⟨w2, hrun, hi, _, _⟩ := run_xwayland evs w1 hl (Or.inl hlink)
    exact ⟨w2, hrun, by rw [hi, hc]⟩
  refine ⟨w1, hinit, by rw [hc], ?_, key, ?_⟩
  · obtain ⟨w2, hrun, hi⟩ := key [.map]
    exact ⟨w2, hrun, by simpa using hi⟩
  · intro n
    obtain ⟨w2, hrun, hi⟩ := key (legal_events n)
    exact ⟨w2, hrun, by rw [hi, handled_map_legal]⟩

/-- Witness for C1 on a zeroed record whose link is in the manager's list,
with the sample compat surface. -/
theorem C1_init_view_once_per_map_witness :
    ready linked_world.view ∧
    ∃ w1, wm_view_init_xwayland linked_world none (some sample_xwayland) = some w1 ∧
      init_count w1.calls = init_count linked_world.calls ∧
      (∃ w2, deliver [.map] w1 = some w2 ∧
        init_count w2.calls = init_count linked_world.calls + 1) ∧
      (∀ evs, ∃ w2, deliver evs w1 = some w2 ∧
        init_count w2.calls = init_count linked_world.calls + handled .map evs) ∧
      (∀ n, ∃ w2, deliver (legal_events n) w1 = some w2 ∧
        init_count w2.calls = init_count linked_world.calls + n) :=
  ⟨⟨rfl, rfl, rfl, rfl⟩,
    C1_init_view_once_per_map linked_world none sample_xwayland ⟨rfl, rfl, rfl, rfl⟩⟩

/-- C2: for a shell view (a shell surface that has its toplevel) built on a
record whose own link is in the manager's list and whose listeners are in no
list yet, construction succeeds and makes exactly one `wm_callback_init_view`
call, before any event is delivered and with `mapped` false; whatever event
sequence follows, it runs to its end and the total stays at one; and none of
the three shell handlers makes such a call (the destroy handler on a view
whose four list nodes are in their lists, where it does not fault). -/
theorem C2_xdg_init_view_once_at_construction (w : World) (server : Option Nat)
    (s : wlr_xdg_surface) (t : wlr_xdg_toplevel) (ht : s.toplevel = some t)
    (hready : ready w.view) (evs : List Event) :
    ∃ w1 w2, wm_view_init_xdg w server (some s) = some w1 ∧
      init_count w1.calls = init_count w.calls + 1 ∧
      w1.view.mapped = false ∧
      deliver evs w1 = some w2 ∧
      init_count w2.calls = init_count w.calls + 1 ∧
      (∀ u, (handle_xdg_map u).map (fun r => init_count r.calls) = some (init_count u.calls)) ∧
      (∀ u, (handle_xdg_unmap u).map (fun r => init_count r.calls) = some (init_count u.calls)) ∧
      (∀ u, removable u.view →
        (handle_xdg_destroy u).map (fun r => init_count r.calls)
          = some (init_count u.calls)) := by
  obtain ⟨w1, hinit, _, _, _, hk⟩ := init_xdg_spec w server s t ht
  obtain ⟨hl, hm, hi, _⟩ := init_xdg_inv w w1 server (some s) hinit
  have hlink : w1.view.link = true := by rw [hk]; exact hready.1
  obtain ⟨w2, hrun, hi2, _, _⟩ := run_xdg evs w1 hl (Or.inl hlink)
  refine ⟨w1, w2, hinit, hi, hm, hrun, by rw [hi2, hi], ?_, ?_, ?_⟩
  · intro u; simp [handle_xdg_map, World.set_mapped]
  · intro u
    simp [handle_xdg_unmap, World.set_mapped, World.emit, init_count, Call.is_init_view]
  · intro u hu
    obtain ⟨r, hr, hc⟩ := destroy_removable u hu
    simp [handle_xdg_destroy, hr, hc, World.emit, init_count, Call.is_init_view]

/-- Witness for C2 on a zeroed record whose link is in the manager's list,
the sample shell surface and the sequence map, unmap, destroy. -/
theorem C2_xdg_init_view_once_at_construction_witness :
    sample_xdg.toplevel = some { title := some "term", app_id := some "foot" } ∧
    ready linked_world.view ∧
    ∃ w1 w2, wm_view_init_xdg linked_world none (some sample_xdg) = some w1 ∧
      init_count w1.calls = init_count linked_world.calls + 1 ∧
      w1.view.mapped = false ∧
      deliver [.map, .unmap, .destroy] w1 = some w2 ∧
      init_count w2.calls = init_count linked_world.calls + 1 ∧
      (∀ u, (handle_xdg_map u).map (fun r => init_count r.calls) = some (init_count u.calls)) ∧
      (∀ u, (handle_xdg_unmap u).map (fun r => init_count r.calls) = some (init_count u.calls)) ∧
      (∀ u, removable u.view →
        (handle_xdg_destroy u).map (fun r => init_count r.calls)
          = some (init_count u.calls)) :=
  ⟨rfl, ⟨rfl, rfl, rfl, rfl⟩,
    C2_xdg_init_view_once_at_construction linked_world none sample_xdg
      { title := some "term", app_id := some "foot" } rfl ⟨rfl, rfl, rfl, rfl⟩
      [.map, .unmap, .destroy]⟩

/-- C3: for a compat view built on a record whose own link is in the
manager's list and whose listeners are in no list yet, construction succeeds
without a `wm_callback_init_view` call, and if the event sequence delivered
afterwards contains no map event then it runs to its end and no such call is
ever made; the unmap handler never makes one, and neither does the destroy
handler (on a view whose four list nodes are in their lists, where it does
not fault). -/
theorem C3_xwayland_no_map_no_init_view (w : World) (server : Option Nat)
    (x : wlr_xwayland_surface) (evs : List Event) (hready : ready w.view)
    (hmap : Event.map ∉ evs) :
    ∃ w1 w2, wm_view_init_xwayland w server (some x) = some w1 ∧
      init_count w1.calls = init_count w.calls ∧
      deliver evs w1 = some w2 ∧
      init_count w2.calls = init_count w.calls ∧
      (∀ u, (handle_xwayland_unmap u).map (fun r => init_count r.calls)
        = some (init_count u.calls)) ∧
      (∀ u, removable u.view →
        (handle_xwayland_destroy u).map (fun r => init_count r.calls)
          = some (init_count u.calls)) := by
  obtain ⟨w1, hinit, hl, _, hc, hk⟩ := init_xwayland_spec w server x
  have hlink : w1.view.link = true := by rw [hk]; exact hready.1
  obtain ⟨w2, hrun, hi, _, _⟩ := run_xwayland evs w1 hl (Or.inl hlink)
  refine ⟨w1, w2, hinit, by rw [hc], hrun, ?_, ?_, ?_⟩
  · rw [hi, hc, handled_of_not_mem _ _ hmap]; rfl
  · intro u
    simp [handle_xwayland_unmap, World.set_mapped, World.emit, init_count, Call.is_init_view]
  · intro u hu
    obtain ⟨r, hr, hc2⟩ := destroy_removable u hu
    simp [handle_xwayland_destroy, hr, hc2, World.emit, init_count, Call.is_init_view]

/-- Witness for C3: destroy alone, with no prior map, on a zeroed record whose
link is in the manager's list. -/
theorem C3_xwayland_no_map_no_init_view_witness :
    ready linked_world.view ∧ Event.map ∉ [Event.destroy] ∧
    ∃ w1 w2, wm_view_init_xwayland linked_world none (some sample_xwayland) = some w1 ∧
      init_count w1.calls = init_count linked_world.calls ∧
      deliver [Event.destroy] w1 = some w2 ∧
      init_count w2.calls = init_count linked_world.calls ∧
      (∀ u, (handle_xwayland_unmap u).map (fun r => init_count r.calls)
        = some (init_count u.calls)) ∧
      (∀ u, removable u.view →
        (handle_xwayland_destroy u).map (fun r => init_count r.calls)
          = some (init_count u.calls)) :=
  ⟨⟨rfl, rfl, rfl, rfl⟩, by decide,
    C3_xwayland_no_map_no_init_view linked_world none sample_xwayland
      [Event.destroy] ⟨rfl, rfl, rfl, rfl⟩ (by decide)⟩

/-- Common part of C4 and C5 for a view of either kind right after its
construction: runs that deliver no destroy, and every run when the view's own
link is in the manager's list. -/
theorem run_constructed (w w1 : World) (server : Option Nat)
    (hinit : (∃ p, wm_view_init_xwayland w server p = some w1) ∨
      (∃ p, wm_view_init_xdg w server p = some w1)) :
    w1.view.mapped = false ∧ destroy_count w1.calls = destroy_count w.calls ∧
    ∀ evs, (w1.view.link = true ∨ Event.destroy ∉ evs) →
      ∃ w2, deliver evs w1 = some w2 ∧
        destroy_count w2.calls = destroy_count w.calls + handled .unmap evs ∧
        (Event.destroy ∉ evs → w2.view.mapped = mapped_after false evs) := by
  rcases hinit with ⟨p, h⟩ | ⟨p, h⟩
  · obtain ⟨hl, hm, hc⟩ := init_xwayland_inv w w1 server p h
    refine ⟨hm, by rw [hc], ?_⟩
    intro evs hd0
    obtain ⟨w2, hrun, _, hd, hmp⟩ := run_xwayland evs w1 hl hd0
    exact ⟨w2, hrun, by rw [hd, hc], fun hn => by rw [(hmp hn).2, hm]⟩
  · obtain ⟨hl, hm, _, hc⟩ := init_xdg_inv w w1 server p h
    refine ⟨hm, hc, ?_⟩
    intro evs hd0
    obtain ⟨w2, hrun, _, hd, hmp⟩ := run_xdg evs w1 hl hd0
    exact ⟨w2, hrun, by rw [hd, hc], fun hn => by rw [(hmp hn).2, hm]⟩

/-- C4: for a constructed view of either kind whose own link is in the
manager's list, construction has made no `wm_callback_destroy_view` call;
every event sequence runs to its end and the number of such calls equals the
number of unmap events handled (map events add none); and the calls made up
to a destroy event are all there will ever be, whatever is delivered at or
after it. -/
theorem C4_destroy_view_once_per_unmap (w w1 : World) (server : Option Nat)
    (hinit : (∃ p, wm_view_init_xwayland w server p = some w1) ∨
      (∃ p, wm_view_init_xdg w server p = some w1))
    (hlink : w1.view.link = true) :
    destroy_count w1.calls = destroy_count w.calls ∧
    (∀ evs, ∃ w2, deliver evs w1 = some w2 ∧
      destroy_count w2.calls = destroy_count w.calls + handled .unmap evs) ∧
    (∀ n, ∃ w2, deliver (legal_events n) w1 = some w2 ∧
      destroy_count w2.calls = destroy_count w.calls + n) ∧
    (∀ pre post, ∃ a b, deliver pre w1 = some a ∧
      deliver (pre ++ .destroy :: post) w1 = some b ∧
      destroy_count b.calls = destroy_count a.calls) := by
  obtain ⟨_, hc, hrun⟩ := run_constructed w w1 server hinit
  refine ⟨hc, ?_, ?_, ?_⟩
  · intro evs
    obtain ⟨w2, h2, hd, _⟩ := hrun evs (Or.inl hlink)
    exact ⟨w2, h2, hd⟩
  · intro n
    obtain ⟨w2, h2, hd, _⟩ := hrun (legal_events n) (Or.inl hlink)
    exact ⟨w2, h2, by rw [hd, handled_unmap_legal]⟩
  · intro pre post
    obtain ⟨a, ha, hda, _⟩ := hrun pre (Or.inl hlink)
    obtain ⟨b, hb, hdb, _⟩ := hrun (pre ++ .destroy :: post) (Or.inl hlink)
    exact ⟨a, b, ha, hb, by rw [hdb, hda, handled_append_destroy]⟩

/-- Witness for C4: the sample compat view right after construction on a
record whose link is in the manager's list. -/
theorem C4_destroy_view_once_per_unmap_witness :
    ((∃ p, wm_view_init_xwayland linked_world none p = some linked_xwayland_world) ∨
      (∃ p, wm_view_init_xdg linked_world none p = some linked_xwayland_world)) ∧
    linked_xwayland_world.view.link = true ∧
    (destroy_count linked_xwayland_world.calls = destroy_count linked_world.calls ∧
    (∀ evs, ∃ w2, deliver evs linked_xwayland_world = some w2 ∧
      destroy_count w2.calls = destroy_count linked_world.calls + handled .unmap evs) ∧
    (∀ n, ∃ w2, deliver (legal_events n) linked_xwayland_world = some w2 ∧
      destroy_count w2.calls = destroy_count linked_world.calls + n) ∧
    (∀ pre post, ∃ a b, deliver pre linked_xwayland_world = some a ∧
      deliver (pre ++ .destroy :: post) linked_xwayland_world = some b ∧
      destroy_count b.calls = destroy_count a.calls)) :=
  ⟨Or.inl ⟨some sample_xwayland, rfl⟩, rfl,
    C4_destroy_view_once_per_unmap linked_world linked_xwayland_world none
      (Or.inl ⟨some sample_xwayland, rfl⟩) rfl⟩

/-- C5: for a view of either kind, `mapped` is false after construction;
after any sequence of map and unmap events it is true exactly when the last
event was a map; and over map, unmap, map it reads true, false, true, with
`wm_callback_destroy_view` called exactly once, by the unmap. -/
theorem C5_mapped_follows_last_event (w w1 : World) (server : Option Nat)
    (hinit : (∃ p, wm_view_init_xwayland w server p = some w1) ∨
      (∃ p, wm_view_init_xdg w server p = some w1)) :
    w1.view.mapped = false ∧
    (∀ evs, Event.destroy ∉ evs → ∃ w2, deliver evs w1 = some w2 ∧
      (w2.view.mapped = true ↔ evs.getLast? = some .map)) ∧
    (∃ a b c, deliver [.map] w1 = some a ∧ deliver [.map, .unmap] w1 = some b ∧
      deliver [.map, .unmap, .map] w1 = some c ∧
      a.view.mapped = true ∧ b.view.mapped = false ∧ c.view.mapped = true ∧
      destroy_count a.calls = destroy_count w.calls ∧
      destroy_count b.calls = destroy_count w.calls + 1 ∧
      destroy_count c.calls = destroy_count w.calls + 1) := by
  obtain ⟨hm, _, hrun⟩ := run_constructed w w1 server hinit
  refine ⟨hm, ?_, ?_⟩
  · intro evs hn
    obtain ⟨w2, h2, _, hmp⟩ := hrun evs (Or.inr hn)
    refine ⟨w2, h2, ?_⟩
    rw [hmp hn, mapped_after_last evs false hn]
    simp
  · obtain ⟨a, ha, hda, hma⟩ := hrun [.map] (Or.inr (by decide))
    obtain ⟨b, hb, hdb, hmb⟩ := hrun [.map, .unmap] (Or.inr (by decide))
    obtain ⟨c, hc, hdc, hmc⟩ := hrun [.map, .unmap, .map] (Or.inr (by decide))
    refine ⟨a, b, c, ha, hb, hc, ?_, ?_, ?_, ?_, ?_, ?_⟩
    · rw [hma (by decide)]; rfl
    · rw [hmb (by decide)]; rfl
    · rw [hmc (by decide)]; rfl
    · simpa using hda
    · simpa using hdb
    · simpa using hdc

/-- Witness for C5: the sample compat view right after construction. -/
theorem C5_mapped_follows_last_event_witness :
    ((∃ p, wm_view_init_xwayland blank_world none p = some sample_xwayland_world) ∨
      (∃ p, wm_view_init_xdg blank_world none p = some sample_xwayland_world)) ∧
    (sample_xwayland_world.view.mapped = false ∧
    (∀ evs, Event.destroy ∉ evs → ∃ w2, deliver evs sample_xwayland_world = some w2 ∧
      (w2.view.mapped = true ↔ evs.getLast? = some .map)) ∧
    (∃ a b c, deliver [.map] sample_xwayland_world = some a ∧
      deliver [.map, .unmap] sample_xwayland_world = some b ∧
      deliver [.map, .unmap, .map] sample_xwayland_world = some c ∧
      a.view.mapped = true ∧ b.view.mapped = false ∧ c.view.mapped = true ∧
      destroy_count a.calls = destroy_count blank_world.calls ∧
      destroy_count b.calls = destroy_count blank_world.calls + 1 ∧
      destroy_count c.calls = destroy_count blank_world.calls + 1)) :=
  ⟨Or.inl ⟨some sample_xwayland, rfl⟩,
    C5_mapped_follows_last_event blank_world sample_xwayland_world none
      (Or.inl ⟨some sample_xwayland, rfl⟩)⟩

/-- Calls of a backend-legal run of a live, unmapped compat view whose own
link is in the manager's list: every view record handed to
`wm_callback_init_view` has `mapped` false. -/
theorem legal_snapshots (n : Nat) (w : World) (hl : live_xwayland w.view)
    (hm : w.view.mapped = false) (hlink : w.view.link = true) :
    ∃ w2 new, deliver (legal_events n) w = some w2 ∧ w2.calls = w.calls ++ new ∧
      (init_snapshots new).length = n ∧ ∀ v ∈ init_snapshots new, v.mapped = false := by
  induction n generalizing w with
  | zero =>
    obtain ⟨w1, hstep, _, _, hc⟩ := emit_destroy_xwayland w hl hlink
    refine ⟨w1, [.free w1.view], ?_, hc, ?_, ?_⟩
    · simp [legal_events, deliver, hstep]
    · simp [init_snapshots]
    · simp [init_snapshots]
  | succ k ih =>
    obtain ⟨x, _, hstep1⟩ := emit_map_xwayland w hl
    have hstep2 := emit_unmap_xwayland
      { view := { w.view with mapped := true },
        calls := w.calls ++
          [.wlr_log "New wm_view (xwayland): %s, %s, %s"
              [x.title, x.class_name, x.instance_name],
           .wm_callback_init_view w.view] } hl
    obtain ⟨w2, new, hrun, hc, hlen, hall⟩ := ih
      { view := { w.view with mapped := false },
        calls := (w.calls ++
          [.wlr_log "New wm_view (xwayland): %s, %s, %s"
              [x.title, x.class_name, x.instance_name],
           .wm_callback_init_view w.view]) ++
          [.wm_callback_destroy_view { w.view with mapped := false }] } hl rfl hlink
    refine ⟨w2, [.wlr_log "New wm_view (xwayland): %s, %s, %s"
              [x.title, x.class_name, x.instance_name],
           .wm_callback_init_view w.view,
           .wm_callback_destroy_view { w.view with mapped := false }] ++ new, ?_, ?_, ?_, ?_⟩
    · simp only [legal_events, deliver, hstep1]
      rw [hstep2]
      exact hrun
    · rw [hc]; simp
    · simp [init_snapshots, init_snapshots_append, hlen]
    · intro v hv
      simp only [init_snapshots_append, init_snapshots, List.mem_append, List.mem_singleton,
        List.not_mem_nil, or_false, false_or, List.mem_cons, List.nil_append] at hv
      rcases hv with hv | hv
      · rw [hv]; exact hm
      · exact hall v hv

/-! ## Manager-facing operations -/

/-- C6, as stated, fails: a shell view whose backend object has no drawable
surface reports its 640 x 480 geometry box, not (0, 0); and a compat view
whose handle is absent faults. -/
theorem C6_counterexample :
    sample_xdg.surface = none ∧
    (wm_view_get_size { view := xdg_view (some sample_xdg), calls := [] }).map Prod.fst
      = some (640, 480) ∧
    wm_view_get_size { view := xwayland_view none, calls := [] } = none := by
  decide

/-- C6, amended: `wm_view_get_size` writes (0, 0) without failing for a shell
view whose handle is absent and for a compat view whose backend object has no
drawable surface; for a shell view whose handle is present it writes the
object's geometry width and height, drawable surface or not.  The view is left
as it was. -/
theorem C6_get_size_zero_cases (w : World) :
    (w.view.kind = .WM_VIEW_XDG → w.view.wlr_xdg_surface = none →
      ∃ w1, wm_view_get_size w = some ((0, 0), w1) ∧ w1.view = w.view ∧
        backend_calls w1.calls = backend_calls w.calls) ∧
    (∀ x, w.view.kind = .WM_VIEW_XWAYLAND → w.view.wlr_xwayland_surface = some x →
      x.surface = none → wm_view_get_size w = some ((0, 0), w)) ∧
    (∀ s, w.view.kind = .WM_VIEW_XDG → w.view.wlr_xdg_surface = some s →
      wm_view_get_size w = some ((s.geometry_width, s.geometry_height), w)) := by
  refine ⟨?_, ?_, ?_⟩
  · intro hk hh
    simp [wm_view_get_size, hk, hh, World.emit, backend_calls, Call.is_backend]
  · intro x hk hh hs
    simp [wm_view_get_size, hk, hh, hs]
  · intro s hk hh
    simp [wm_view_get_size, hk, hh]

/-- Witness for C6 on the sample compat surface, which has no drawable
surface. -/
theorem C6_get_size_zero_cases_witness :
    sample_xwayland.surface = none ∧
    wm_view_get_size { view := xwayland_view (some sample_xwayland), calls := [] }
      = some ((0, 0), { view := xwayland_view (some sample_xwayland), calls := [] }) :=
  ⟨rfl, (C6_get_size_zero_cases
    { view := xwayland_view (some sample_xwayland), calls := [] }).2.1
    sample_xwayland rfl rfl rfl⟩

/-- C7, as stated, fails: on a compat view whose handle is absent
`wm_view_request_size` still issues a configure request (with the null
handle); and on a compat view whose handle is present a width of 70000 does
not reach the backend as given, the `uint16_t` parameter receives 4464. -/
theorem C7_counterexample :
    (wm_view_request_size { view := xwayland_view none, calls := [] } 800 600).map
        (fun r => backend_calls r.calls)
      = some [.wlr_xwayland_surface_configure none 0 0 800 600] ∧
    (wm_view_request_size
        { view := xwayland_view (some sample_xwayland), calls := [] } 70000 600).map
        (fun r => backend_calls r.calls)
      = some [.wlr_xwayland_surface_configure (some sample_xwayland) 0 0 4464 600] := by
  decide

/-- C7, amended: on a shell view `wm_view_request_size` issues no backend
call when the handle is absent or the role is not top-level, and exactly one
set-size request when the role is top-level, carrying the width and height
converted to `uint32_t`, which are the given values when these are
non-negative and below 2^32; on a compat view whose handle is present it
issues exactly one configure request at (0, 0), carrying the width and height
converted to `uint16_t`, which are the given values when these lie in
0..65535.  The view is left as it was. -/
theorem C7_request_size (w : World) (width height : Int) :
    (w.view.kind = .WM_VIEW_XDG → w.view.wlr_xdg_surface = none →
      ∃ w1, wm_view_request_size w width height = some w1 ∧ w1.view = w.view ∧
        backend_calls w1.calls = backend_calls w.calls) ∧
    (∀ s, w.view.kind = .WM_VIEW_XDG → w.view.wlr_xdg_surface = some s →
      s.role ≠ .WLR_XDG_SURFACE_ROLE_TOPLEVEL →
      ∃ w1, wm_view_request_size w width height = some w1 ∧ w1.view = w.view ∧
        backend_calls w1.calls = backend_calls w.calls) ∧
    (∀ s, w.view.kind = .WM_VIEW_XDG → w.view.wlr_xdg_surface = some s →
      s.role = .WLR_XDG_SURFACE_ROLE_TOPLEVEL →
      ∃ w1, wm_view_request_size w width height = some w1 ∧ w1.view = w.view ∧
        backend_calls w1.calls =
          backend_calls w.calls ++
            [.wlr_xdg_toplevel_set_size (some s) (to_uint32 width) (to_uint32 height)] ∧
        (0 ≤ width → width < 4294967296 → 0 ≤ height → height < 4294967296 →
          backend_calls w1.calls =
            backend_calls w.calls ++ [.wlr_xdg_toplevel_set_size (some s) width height])) ∧
    (∀ x, w.view.kind = .WM_VIEW_XWAYLAND → w.view.wlr_xwayland_surface = some x →
      ∃ w1, wm_view_request_size w width height = some w1 ∧ w1.view = w.view ∧
        backend_calls w1.calls =
          backend_calls w.calls ++
            [.wlr_xwayland_surface_configure (some x) 0 0
              (to_uint16 width) (to_uint16 height)] ∧
        (0 ≤ width → width < 65536 → 0 ≤ height → height < 65536 →
          backend_calls w1.calls =
            backend_calls w.calls ++
              [.wlr_xwayland_surface_configure (some x) 0 0 width height])) := by
  refine ⟨?_, ?_, ?_, ?_⟩
  · intro hk hh
    simp [wm_view_request_size, hk, hh, World.emit, backend_calls, Call.is_backend]
  · intro s hk hh hr
    simp [wm_view_request_size, hk, hh, hr, World.emit, backend_calls, Call.is_backend]
  · intro s hk hh hr
    refine ⟨w.emit (.wlr_xdg_toplevel_set_size (some s) (to_uint32 width) (to_uint32 height)),
      ?_, rfl, ?_, ?_⟩
    · simp [wm_view_request_size, hk, hh, hr]
    · simp [World.emit, backend_calls, Call.is_backend]
    · intro h1 h2 h3 h4
      have e1 : to_uint32 width = width := Int.emod_eq_of_lt h1 h2
      have e2 : to_uint32 height = height := Int.emod_eq_of_lt h3 h4
      rw [e1, e2]
      simp [World.emit, backend_calls, Call.is_backend]
  · intro x hk hh
    refine ⟨w.emit (.wlr_xwayland_surface_configure (some x) 0 0
      (to_uint16 width) (to_uint16 height)), ?_, rfl, ?_, ?_⟩
    · simp [wm_view_request_size, hk, hh]
    · simp [World.emit, backend_calls, Call.is_backend]
    · intro h1 h2 h3 h4
      have e1 : to_uint16 width = width := Int.emod_eq_of_lt h1 h2
      have e2 : to_uint16 height = height := Int.emod_eq_of_lt h3 h4
      rw [e1, e2]
      simp [World.emit, backend_calls, Call.is_backend]

/-- Witness for C7: a top-level shell view asked for 800 x 600. -/
theorem C7_request_size_witness :
    sample_xdg.role = .WLR_XDG_SURFACE_ROLE_TOPLEVEL ∧
    ∃ w1, wm_view_request_size { view := xdg_view (some sample_xdg), calls := [] } 800 600
        = some w1 ∧ w1.view = xdg_view (some sample_xdg) ∧
      backend_calls w1.calls =
        backend_calls [] ++
          [.wlr_xdg_toplevel_set_size (some sample_xdg) (to_uint32 800) (to_uint32 600)] ∧
      ((0 : Int) ≤ 800 → (800 : Int) < 4294967296 → (0 : Int) ≤ 600 →
        (600 : Int) < 4294967296 →
        backend_calls w1.calls =
          backend_calls [] ++ [.wlr_xdg_toplevel_set_size (some sample_xdg) 800 600]) :=
  ⟨rfl, (C7_request_size { view := xdg_view (some sample_xdg), calls := [] } 800 600).2.2.1
    sample_xdg rfl rfl rfl⟩

/-- C8, as stated, fails: on a shell view whose backend object has no
drawable surface `wm_view_focus` still calls `wm_seat_focus_surface`, with a
null surface. -/
theorem C8_counterexample :
    sample_xdg.surface = none ∧
    (wm_view_focus { view := xdg_view (some sample_xdg), calls := [] } 7).map
        (fun r => r.calls)
      = some [.wm_seat_focus_surface 7 none] := by
  decide

/-- C8, amended: on a compat view whose drawable surface is absent
`wm_view_focus` does nothing at all; on a compat view whose drawable surface is
present it makes exactly one `wm_seat_focus_surface` call with the given seat
and that surface; on a shell view (handle present) it always makes exactly one
such call, with the given seat and whatever the object's surface field holds. -/
theorem C8_focus (w : World) (seat : Nat) :
    (∀ x, w.view.kind = .WM_VIEW_XWAYLAND → w.view.wlr_xwayland_surface = some x →
      x.surface = none → wm_view_focus w seat = some w) ∧
    (∀ x d, w.view.kind = .WM_VIEW_XWAYLAND → w.view.wlr_xwayland_surface = some x →
      x.surface = some d →
      wm_view_focus w seat = some (w.emit (.wm_seat_focus_surface seat (some d)))) ∧
    (∀ s, w.view.kind = .WM_VIEW_XDG → w.view.wlr_xdg_surface = some s →
      wm_view_focus w seat = some (w.emit (.wm_seat_focus_surface seat s.surface))) := by
  refine ⟨?_, ?_, ?_⟩
  · intro x hk hh hs
    simp [wm_view_focus, hk, hh, hs]
  · intro x d hk hh hs
    simp [wm_view_focus, hk, hh, hs]
  · intro s hk hh
    simp [wm_view_focus, hk, hh]

/-- Witness for C8: a compat view with a drawable surface, focused by seat 7. -/
theorem C8_focus_witness :
    wm_view_focus
        { view := xwayland_view (some { sample_xwayland with surface := some sample_surface }),
          calls := [] } 7
      = some
        { view := xwayland_view (some { sample_xwayland with surface := some sample_surface }),
          calls := [.wm_seat_focus_surface 7 (some sample_surface)] } :=
  (C8_focus
    { view := xwayland_view (some { sample_xwayland with surface := some sample_surface }),
      calls := [] } 7).2.1
    { sample_xwayland with surface := some sample_surface } sample_surface rfl rfl rfl

/-- C9: `wm_view_get_info` yields, for a shell view, the toplevel's title, the
toplevel's app id and the constant "toplevel"; for a compat view, the backend
object's title, class and instance; it leaves the world as it was, and its
result is the same for any two worlds that agree on the kind and the two
handles. -/
theorem C9_get_info (w : World) :
    (∀ s t, w.view.kind = .WM_VIEW_XDG → w.view.wlr_xdg_surface = some s →
      s.toplevel = some t →
      wm_view_get_info w = some ((t.title, t.app_id, some "toplevel"), w)) ∧
    (∀ x, w.view.kind = .WM_VIEW_XWAYLAND → w.view.wlr_xwayland_surface = some x →
      wm_view_get_info w = some ((x.title, x.class_name, x.instance_name), w)) ∧
    (∀ u : World, u.view.kind = w.view.kind →
      u.view.wlr_xdg_surface = w.view.wlr_xdg_surface →
      u.view.wlr_xwayland_surface = w.view.wlr_xwayland_surface →
      (wm_view_get_info u).map Prod.fst = (wm_view_get_info w).map Prod.fst) := by
  refine ⟨?_, ?_, ?_⟩
  · intro s t hk hh ht
    simp [wm_view_get_info, hk, hh, ht]
  · intro x hk hh
    simp [wm_view_get_info, hk, hh]
  · intro u hk hx hy
    unfold wm_view_get_info
    rw [hk, hx, hy]
    cases w.view.kind
    · cases w.view.wlr_xdg_surface with
      | none => rfl
      | some s =>
        cases ht : s.toplevel with
        | none => simp [ht]
        | some t => simp [ht]
    · cases w.view.wlr_xwayland_surface <;> rfl

/-- Witness for C9 on the sample shell surface. -/
theorem C9_get_info_witness :
    wm_view_get_info { view := xdg_view (some sample_xdg), calls := [] }
      = some ((some "term", some "foot", some "toplevel"),
          { view := xdg_view (some sample_xdg), calls := [] }) :=
  (C9_get_info { view := xdg_view (some sample_xdg), calls := [] }).1
    sample_xdg { title := some "term", app_id := some "foot" } rfl rfl rfl

/-- C10: `handle_xwayland_map` hands the view to `wm_callback_init_view` as it
was before the event and stores `mapped = true` only afterwards; over a
backend-legal sequence (on a record whose own link is in the manager's list
and whose listeners are in no list yet) every view record handed to the
callback has `mapped` false, so within backend-legal sequences the manager
never sees `mapped = true` in its init callback; and the shell variant makes
its one call during construction, with `mapped` false. -/
theorem C10_init_view_sees_unmapped :
    (∀ (u : World) (x : wlr_xwayland_surface), u.view.kind = .WM_VIEW_XWAYLAND →
      u.view.wlr_xwayland_surface = some x →
      ∃ l, l.is_init_view = false ∧
        handle_xwayland_map u = some
          { view := { u.view with mapped := true },
            calls := u.calls ++ [l, .wm_callback_init_view u.view] }) ∧
    (∀ (w : World) (server : Option Nat) (x : wlr_xwayland_surface) (n : Nat),
      ready w.view →
      ∃ w1 w2 new, wm_view_init_xwayland w server (some x) = some w1 ∧
        deliver (legal_events n) w1 = some w2 ∧ w2.calls = w.calls ++ new ∧
        (init_snapshots new).length = n ∧ ∀ v ∈ init_snapshots new, v.mapped = false) ∧
    (∀ (w : World) (server : Option Nat) (s : wlr_xdg_surface) (t : wlr_xdg_toplevel),
      s.toplevel = some t →
      ∃ w1 new, wm_view_init_xdg w server (some s) = some w1 ∧
        w1.calls = w.calls ++ new ∧ init_snapshots new = [w1.view] ∧
        w1.view.mapped = false) := by
  refine ⟨?_, ?_, ?_⟩
  · intro u x hk hh
    refine ⟨.wlr_log "New wm_view (xwayland): %s, %s, %s"
      [x.title, x.class_name, x.instance_name], rfl, ?_⟩
    simp [handle_xwayland_map, wm_view_get_info, hk, hh, World.emit, World.set_mapped]
  · intro w server x n hready
    obtain ⟨w1, hinit, hl, hm, hc, hk⟩ := init_xwayland_spec w server x
    have hlink : w1.view.link = true := by rw [hk]; exact hready.1
    obtain ⟨w2, new, hrun, hc2, hlen, hall⟩ := legal_snapshots n w1 hl hm hlink
    exact ⟨w1, w2, new, hinit, hrun, by rw [hc2, hc], hlen, hall⟩
  · intro w server s t ht
    obtain ⟨w1, hinit, _, hm, hc, _⟩ := init_xdg_spec w server s t ht
    exact ⟨w1, _, hinit, hc, by simp [init_snapshots], hm⟩

/-- Witness for C10: the first map of the sample compat view, and the
backend-legal run map, unmap, destroy on a zeroed record whose link is in the
manager's list. -/
theorem C10_init_view_sees_unmapped_witness :
    (∃ l, l.is_init_view = false ∧
      handle_xwayland_map sample_xwayland_world = some
        { view := { sample_xwayland_world.view with mapped := true },
          calls := sample_xwayland_world.calls ++
            [l, .wm_callback_init_view sample_xwayland_world.view] }) ∧
    ready linked_world.view ∧
    (∃ w1 w2 new, wm_view_init_xwayland linked_world none (some sample_xwayland) = some w1 ∧
      deliver (legal_events 1) w1 = some w2 ∧ w2.calls = linked_world.calls ++ new ∧
      (init_snapshots new).length = 1 ∧ ∀ v ∈ init_snapshots new, v.mapped = false) :=
  ⟨C10_init_view_sees_unmapped.1 sample_xwayland_world sample_xwayland rfl rfl,
    ⟨rfl, rfl, rfl, rfl⟩,
    C10_init_view_sees_unmapped.2.1 linked_world none sample_xwayland 1
      ⟨rfl, rfl, rfl, rfl⟩⟩

end Newm
